import Mathlib

/- Verification development for the aws-dashboard-chatbot repository (src/app.py).

   Tab 1 of app.py parses billing text with
   re.findall applied to the pattern  ([A-Za-z ]+?)\s+USD(?:\xa0|\s)?([0-9,]+\.\d{2}) ,
   filters a denylist of labels (compared after .lower(), without stripping),
   stores records with Service = name.strip() and Cost = float(amount.replace(",", "")),
   then runs a pandas groupby("Service").sum() (group keys are returned in
   ascending sorted order) followed by sort_values(by="Cost", ascending=False).

   Numeric model: Python float values are modelled as exact rational numbers.
   Every concrete amount used in a theorem below (3.00, 1.00, 2.00, 120.50,
   10.00, 130.50) is exactly representable as a binary double, so on those
   inputs the rational model agrees with Python bit for bit.

   Sorting model: pandas sort_values with ascending=False computes an
   ascending argsort and then reverses the index array (pandas nargsort).
   The model is an ascending insertion sort followed by List.reverse.  The
   insertion sort is stable; numpy argsort with kind quicksort (introsort)
   is an insertion sort, and hence stable, only for fewer than 16 elements,
   and gives no guaranteed order among equal keys beyond that.  The
   theorems below therefore use this model only through properties that do
   not depend on the order of equal-cost entries (permutation invariance,
   the non-increasing cost order, strictly ascending distinct group keys),
   plus concrete evaluations whose results have at most two groups, where
   the model agrees with numpy exactly. -/

/-- Python regex class \s (str patterns): ASCII whitespace plus U+00A0 as the
relevant Unicode whitespace for this file. -/
def isSpaceRe (c : Char) : Bool :=
  c == ' ' || c == '\t' || c == '\n' || c == '\r' || c == '\u000b' || c == '\u000c' || c.toNat == 160

/-- Regex class [A-Za-z ] used for the label capture group. -/
def isLabelChar (c : Char) : Bool := c.isAlpha || c == ' '

/-- Regex class [0-9,] used for the integral part of the amount. -/
def isAmtChar (c : Char) : Bool := c.isDigit || c == ','

/-- Greedy match of  [0-9,]+\.\d{2}  starting at the given characters, with
backtracking over the run length (longest run first).  Returns the matched
amount text and the remaining characters. -/
def matchAmountGo (acc : List Char) : List Char → Option (String × List Char)
  | [] => none
  | c :: rest =>
    if isAmtChar c then
      (matchAmountGo (acc ++ [c]) rest) <|>
        (match rest with
         | '.' :: d1 :: d2 :: r =>
           if d1.isDigit && d2.isDigit then
             some (String.mk (acc ++ [c, '.', d1, d2]), r)
           else none
         | _ => none)
    else none

def matchAmount (s : List Char) : Option (String × List Char) :=
  matchAmountGo [] s

/-- Match  USD(?:\xa0|\s)?  followed by the amount.  The optional whitespace
is greedy: the branch that consumes a character is tried first. -/
def matchTail : List Char → Option (String × List Char)
  | 'U' :: 'S' :: 'D' :: rest =>
    (match rest with
     | c :: rest2 =>
       if isSpaceRe c then (matchAmount rest2) <|> (matchAmount rest) else matchAmount rest
     | [] => none)
  | _ => none

/-- Match  \s+  (greedy, longest run first) followed by USD and the amount. -/
def matchWsThenTail : List Char → Option (String × List Char)
  | [] => none
  | c :: rest =>
    if isSpaceRe c then (matchWsThenTail rest) <|> (matchTail rest) else none

/-- Lazy label capture  [A-Za-z ]+?  : shorter labels are tried first, the
label is extended one character at a time while the rest of the pattern
fails.  Returns (label, amount, remaining characters). -/
def matchLabelGo (acc : List Char) : List Char → Option (String × String × List Char)
  | [] => none
  | c :: rest =>
    if isLabelChar c then
      match matchWsThenTail rest with
      | some (amt, r) => some (String.mk (acc ++ [c]), amt, r)
      | none => matchLabelGo (acc ++ [c]) rest
    else none

def matchFrom (s : List Char) : Option (String × String × List Char) :=
  matchLabelGo [] s

/-- re.findall scan: try a match at each position from left to right; on
success continue after the end of the match (non-overlapping), on failure
advance one character.  A successful match consumes at least five
characters, so fuel equal to the length of the text is always sufficient. -/
def findAllFuel : Nat → List Char → List (String × String)
  | 0, _ => []
  | _ + 1, [] => []
  | fuel + 1, c :: rest =>
    match matchFrom (c :: rest) with
    | some (lab, amt, r) => (lab, amt) :: findAllFuel fuel r
    | none => findAllFuel fuel rest

def findAll (s : List Char) : List (String × String) :=
  findAllFuel s.length s

/-- Python str.lower for the ASCII labels produced by the pattern. -/
def lower (s : String) : String := String.mk (s.data.map Char.toLower)

/-- Python str.strip: drop leading and trailing whitespace. -/
def strip (s : String) : String :=
  String.mk (((s.data.dropWhile Char.isWhitespace).reverse.dropWhile Char.isWhitespace).reverse)

def digitsToNat (l : List Char) : Nat :=
  l.foldl (fun n c => 10 * n + (c.toNat - 48)) 0

/-- The exact value of the matched amount, in hundredths: the amount text
matches [0-9,]+\.\d{2}, the commas are removed (amount.replace(",", "")) and
the result read as a decimal with two fractional digits. -/
def amountCents (a : String) : Nat :=
  let cl := a.data.filter (fun c => c != ',')
  digitsToNat (cl.takeWhile (fun c => c != '.')) * 100
    + digitsToNat ((cl.dropWhile (fun c => c != '.')).drop 1)

/-- float(amount.replace(",", "")), modelled as the exact decimal value. -/
def amountVal (a : String) : ℚ := (amountCents a : ℚ) / 100

/-- The denylist from app.py line 49, matched against name.lower(). -/
def denylist : List String :=
  ["total", "grand total", "amazon web services india private limited"]

def rawMatches (text : String) : List (String × String) :=
  findAll text.data

/-- The records appended to data in the tab 1 loop: the denylisted labels are
skipped, the kept records carry name.strip() and the float amount. -/
def costLines (text : String) : List (String × ℚ) :=
  (rawMatches text).filterMap (fun m =>
    if lower m.1 ∈ denylist then none else some (strip m.1, amountVal m.2))

/-- Stable insertion into a sorted list: the new element goes before the
first element it compares le to, hence after the equal elements already
present. -/
def insertSorted (le : α → α → Bool) (x : α) : List α → List α
  | [] => [x]
  | y :: ys => if le x y then x :: y :: ys else y :: insertSorted le x ys

/-- Insertion sort.  numpy argsort(kind=quicksort) behaves like this stable
sort only for arrays of fewer than 16 elements; for larger arrays the
introsort partitioning permutes equal keys.  No theorem below relies on the
order of equal keys except concrete evaluations with at most two groups. -/
def insertionSort (le : α → α → Bool) : List α → List α
  | [] => []
  | x :: xs => insertSorted le x (insertionSort le xs)

/-- Lexicographic code-point comparison of character lists: the Python
comparison used by pandas when it sorts the Service keys. -/
def charListLt : List Char → List Char → Bool
  | _, [] => false
  | [], _ :: _ => true
  | a :: as, b :: bs => decide (a.toNat < b.toNat) || (a == b && charListLt as bs)

/-- Python string strict comparison a < b. -/
def strLt (a b : String) : Bool := charListLt a.data b.data

/-- Python string comparison a <= b, written as not (b < a). -/
def strLe (a b : String) : Bool := !(strLt b a)

def costLe (a b : String × ℚ) : Bool := decide (a.2 ≤ b.2)

/-- pandas groupby key order: the distinct Service names in ascending order. -/
def groupKeys (lines : List (String × ℚ)) : List String :=
  insertionSort strLe ((lines.map Prod.fst).dedup)

/-- The summed Cost of one group. -/
def groupTotal (lines : List (String × ℚ)) (k : String) : ℚ :=
  ((lines.filter (fun p => p.1 == k)).map Prod.snd).sum

/-- df.groupby("Service", as_index=False).sum() -/
def aggregate (lines : List (String × ℚ)) : List (String × ℚ) :=
  (groupKeys lines).map (fun k => (k, groupTotal lines k))

/-- df.sort_values(by="Cost", ascending=False): ascending argsort, then the
index array is reversed.  The ascending argsort is modelled by the
insertion sort above; its tie order matches numpy only below 16 rows. -/
def sortValuesDesc (l : List (String × ℚ)) : List (String × ℚ) :=
  (insertionSort costLe l).reverse

/-- The full tab 1 pipeline from raw text to the displayed table. -/
def extractCosts (text : String) : List (String × ℚ) :=
  sortValuesDesc (aggregate (costLines text))

/- ------------------------------------------------------------------
   Migration orchestrator (tab 3 lines 237-285, tab 2 lines 129-171).

   The EC2 client is modelled as a record of oracles (the Provisioning
   Client of the spec).  waitSnapshot models
   ec2.get_waiter("snapshot_completed").wait: true means the snapshot
   reported ready within the bounded wait, false means the waiter raised
   WaiterError (timeout).  Except.error models a raised botocore
   ClientError, caught by the surrounding try/except.
   ------------------------------------------------------------------ -/

/-- The source instance description, as read from describe_instances. -/
structure Instance where
  instanceType : String
  availabilityZone : String
  architecture : String
  rootDeviceName : String
  /-- BlockDeviceMappings: pairs of DeviceName and Ebs.VolumeId. -/
  blockDeviceMappings : List (String × String)
deriving DecidableEq, Repr

/-- Arguments of the ec2.register_image call (tab 3, lines 257-268). -/
structure RegisterImageArgs where
  name : String
  rootDeviceName : String
  /-- BlockDeviceMappings of the image: DeviceName and Ebs.SnapshotId. -/
  blockDeviceMappings : List (String × String)
  architecture : String
  virtualizationType : String
deriving DecidableEq, Repr

/-- One entry of the hardcoded BlockDeviceMappings of the tab 2 launch. -/
structure RunBdm where
  deviceName : String
  snapshotId : String
  deleteOnTermination : Bool
  volumeType : String
deriving DecidableEq, Repr

/-- Arguments of an ec2.run_instances call. -/
structure RunInstancesArgs where
  imageId : String
  instanceType : String
  minCount : Nat
  maxCount : Nat
  keyName : String
  placementAZ : Option String
  blockDeviceMappings : Option (List RunBdm)
deriving DecidableEq, Repr

/-- The provider operations the orchestrator consumes. -/
structure Provider where
  createSnapshot : String → String → Except String String
  waitSnapshot : String → Bool
  registerImage : RegisterImageArgs → Except String String
  runInstances : RunInstancesArgs → Except String String

/-- The phases of the migration workflow, in the vocabulary of the spec. -/
inductive Phase
  | inspecting
  | snapshotRequested
  | snapshotReady
  | imageRegistered
  | launched
deriving DecidableEq, Repr

/-- Why a run failed: the StopIteration of the tab 3 root lookup or the
explicit tab 2 error (missingRootVolume), a WaiterError (timeout), or a
provider exception surfaced verbatim. -/
inductive FailReason
  | missingRootVolume
  | timeout
  | providerError (msg : String)
deriving DecidableEq, Repr

/-- The log of provider invocations performed by a run, in order. -/
inductive Call
  | describeInstances (instanceId : String)
  | createSnapshot (volumeId : String) (description : String)
  | waitSnapshot (snapshotId : String)
  | registerImage (args : RegisterImageArgs)
  | runInstances (args : RunInstancesArgs)
deriving DecidableEq, Repr

/-- Outcome of one migration run: the phases reached in order, the call log,
the provider identifiers recorded so far, the terminal result and the
st.info / st.success / st.error texts shown to the user. -/
structure RunResult where
  phases : List Phase
  calls : List Call
  snapshotId : Option String
  imageId : Option String
  newInstanceId : Option String
  failure : Option (Phase × FailReason)
  messages : List String
deriving DecidableEq, Repr

/-- Tab 3 root volume lookup (lines 241-243): next(v for v in volumes if
v.DeviceName == root_device) takes the first matching mapping; an exhausted
generator raises StopIteration. -/
def rootLookup (inst : Instance) : Option String :=
  (inst.blockDeviceMappings.find? (fun m => m.1 == inst.rootDeviceName)).map Prod.snd

/-- Tab 2 root volume lookup (lines 133-138): a loop over all mappings that
overwrites root_volume_id on every match, so the last match wins. -/
def rootLookupTab2 (inst : Instance) : Option String :=
  inst.blockDeviceMappings.foldl
    (fun acc m => if m.1 == inst.rootDeviceName then some m.2 else acc) none

/-- The register_image arguments built by tab 3 (lines 257-268): name
migrated-ami-<id>, the looked-up root device name (also in the block device
mapping), the architecture of the source instance and hvm. -/
def tab3RegisterArgs (inst : Instance) (selected snapshotId : String) : RegisterImageArgs :=
  { name := "migrated-ami-" ++ selected
    rootDeviceName := inst.rootDeviceName
    blockDeviceMappings := [(inst.rootDeviceName, snapshotId)]
    architecture := inst.architecture
    virtualizationType := "hvm" }

/-- The run_instances arguments built by tab 3 (lines 273-280): the new AMI,
the instance type of the source instance, MinCount=MaxCount=1, the
availability zone of the source instance, the key pair from the text input. -/
def tab3RunArgs (inst : Instance) (amiId keyName : String) : RunInstancesArgs :=
  { imageId := amiId
    instanceType := inst.instanceType
    minCount := 1
    maxCount := 1
    keyName := keyName
    placementAZ := some inst.availabilityZone
    blockDeviceMappings := none }

/-- The run_instances arguments built by tab 2 (lines 153-168): hardcoded
placeholder AMI, t2.micro, placeholder key name, and a hardcoded /dev/xvda
block device mapping over the snapshot. -/
def tab2RunArgs (snapshotId : String) : RunInstancesArgs :=
  { imageId := "ami-0a0ad6b70e61be944"
    instanceType := "t2.micro"
    minCount := 1
    maxCount := 1
    keyName := "your-keypair-name"
    placementAZ := none
    blockDeviceMappings := some [{ deviceName := "/dev/xvda"
                                   snapshotId := snapshotId
                                   deleteOnTermination := true
                                   volumeType := "gp2" }] }

/-- The tab 3 migration flow (lines 237-285): root lookup, create_snapshot,
snapshot_completed waiter, register_image, run_instances, with the single
try/except mapped to a terminal failure tagged by the phase it interrupted. -/
def migrateTab3 (p : Provider) (inst : Instance) (selected keyName : String) : RunResult :=
  match rootLookup inst with
  | none =>
    { phases := [Phase.inspecting]
      calls := [Call.describeInstances selected]
      snapshotId := none, imageId := none, newInstanceId := none
      failure := some (Phase.inspecting, FailReason.missingRootVolume)
      -- str(StopIteration()) is the empty string, so the except handler
      -- displays the bare prefix.
      messages := ["❌ Migration failed: "] }
  | some vol =>
    match p.createSnapshot vol ("Snapshot of " ++ selected) with
    | Except.error e =>
      { phases := [Phase.inspecting, Phase.snapshotRequested]
        calls := [Call.describeInstances selected,
                  Call.createSnapshot vol ("Snapshot of " ++ selected)]
        snapshotId := none, imageId := none, newInstanceId := none
        failure := some (Phase.snapshotRequested, FailReason.providerError e)
        messages := ["❌ Migration failed: " ++ e] }
    | Except.ok sid =>
      if p.waitSnapshot sid then
        match p.registerImage (tab3RegisterArgs inst selected sid) with
        | Except.error e =>
          { phases := [Phase.inspecting, Phase.snapshotRequested, Phase.snapshotReady]
            calls := [Call.describeInstances selected,
                      Call.createSnapshot vol ("Snapshot of " ++ selected),
                      Call.waitSnapshot sid,
                      Call.registerImage (tab3RegisterArgs inst selected sid)]
            snapshotId := some sid, imageId := none, newInstanceId := none
            failure := some (Phase.snapshotReady, FailReason.providerError e)
            messages := ["Creating snapshot " ++ sid ++ "...",
                         "❌ Migration failed: " ++ e] }
        | Except.ok amiId =>
          match p.runInstances (tab3RunArgs inst amiId keyName) with
          | Except.error e =>
            { phases := [Phase.inspecting, Phase.snapshotRequested, Phase.snapshotReady,
                         Phase.imageRegistered]
              calls := [Call.describeInstances selected,
                        Call.createSnapshot vol ("Snapshot of " ++ selected),
                        Call.waitSnapshot sid,
                        Call.registerImage (tab3RegisterArgs inst selected sid),
                        Call.runInstances (tab3RunArgs inst amiId keyName)]
              snapshotId := some sid, imageId := some amiId, newInstanceId := none
              failure := some (Phase.imageRegistered, FailReason.providerError e)
              messages := ["Creating snapshot " ++ sid ++ "...",
                           "AMI created: " ++ amiId,
                           "❌ Migration failed: " ++ e] }
          | Except.ok nid =>
            { phases := [Phase.inspecting, Phase.snapshotRequested, Phase.snapshotReady,
                         Phase.imageRegistered, Phase.launched]
              calls := [Call.describeInstances selected,
                        Call.createSnapshot vol ("Snapshot of " ++ selected),
                        Call.waitSnapshot sid,
                        Call.registerImage (tab3RegisterArgs inst selected sid),
                        Call.runInstances (tab3RunArgs inst amiId keyName)]
              snapshotId := some sid, imageId := some amiId, newInstanceId := some nid
              failure := none
              messages := ["Creating snapshot " ++ sid ++ "...",
                           "AMI created: " ++ amiId,
                           "🎉 Migrated EC2 launched: " ++ nid] }
      else
        { phases := [Phase.inspecting, Phase.snapshotRequested]
          calls := [Call.describeInstances selected,
                    Call.createSnapshot vol ("Snapshot of " ++ selected),
                    Call.waitSnapshot sid]
          snapshotId := some sid, imageId := none, newInstanceId := none
          failure := some (Phase.snapshotRequested, FailReason.timeout)
          messages := ["Creating snapshot " ++ sid ++ "...",
                       "❌ Migration failed: Waiter SnapshotCompleted failed: Max attempts exceeded"] }

/-- The tab 2 migration flow (lines 129-171): loop lookup, create_snapshot,
waiter, then run_instances directly from the snapshot with hardcoded
placeholder arguments; no image is ever registered.  The Python test
if not root_volume_id also treats an empty volume id string as missing. -/
def migrateTab2 (p : Provider) (inst : Instance) (selected : String) : RunResult :=
  match rootLookupTab2 inst with
  | none =>
    { phases := [Phase.inspecting]
      calls := [Call.describeInstances selected]
      snapshotId := none, imageId := none, newInstanceId := none
      failure := some (Phase.inspecting, FailReason.missingRootVolume)
      messages := ["Could not find root volume for the instance."] }
  | some vol =>
    if vol = "" then
      { phases := [Phase.inspecting]
        calls := [Call.describeInstances selected]
        snapshotId := none, imageId := none, newInstanceId := none
        failure := some (Phase.inspecting, FailReason.missingRootVolume)
        messages := ["Could not find root volume for the instance."] }
    else
      match p.createSnapshot vol "Snapshot for migration" with
      | Except.error e =>
        { phases := [Phase.inspecting, Phase.snapshotRequested]
          calls := [Call.describeInstances selected,
                    Call.createSnapshot vol "Snapshot for migration"]
          snapshotId := none, imageId := none, newInstanceId := none
          failure := some (Phase.snapshotRequested, FailReason.providerError e)
          messages := ["❌ Migration failed: " ++ e] }
      | Except.ok sid =>
        if p.waitSnapshot sid then
          match p.runInstances (tab2RunArgs sid) with
          | Except.error e =>
            { phases := [Phase.inspecting, Phase.snapshotRequested, Phase.snapshotReady]
              calls := [Call.describeInstances selected,
                        Call.createSnapshot vol "Snapshot for migration",
                        Call.waitSnapshot sid,
                        Call.runInstances (tab2RunArgs sid)]
              snapshotId := some sid, imageId := none, newInstanceId := none
              failure := some (Phase.snapshotReady, FailReason.providerError e)
              messages := ["📸 Snapshot initiated. Waiting to complete...",
                           "❌ Migration failed: " ++ e] }
          | Except.ok nid =>
            { phases := [Phase.inspecting, Phase.snapshotRequested, Phase.snapshotReady,
                         Phase.launched]
              calls := [Call.describeInstances selected,
                        Call.createSnapshot vol "Snapshot for migration",
                        Call.waitSnapshot sid,
                        Call.runInstances (tab2RunArgs sid)]
              snapshotId := some sid, imageId := none, newInstanceId := some nid
              failure := none
              messages := ["📸 Snapshot initiated. Waiting to complete...",
                           "✅ New instance launched: " ++ nid] }
        else
          { phases := [Phase.inspecting, Phase.snapshotRequested]
            calls := [Call.describeInstances selected,
                      Call.createSnapshot vol "Snapshot for migration",
                      Call.waitSnapshot sid]
            snapshotId := some sid, imageId := none, newInstanceId := none
            failure := some (Phase.snapshotRequested, FailReason.timeout)
            messages := ["📸 Snapshot initiated. Waiting to complete...",
                         "❌ Migration failed: Waiter SnapshotCompleted failed: Max attempts exceeded"] }

/-- A provider whose every operation succeeds, for concrete witnesses. -/
def okProvider : Provider :=
  { createSnapshot := fun _ _ => Except.ok "snap-1"
    waitSnapshot := fun _ => true
    registerImage := fun _ => Except.ok "ami-9"
    runInstances := fun _ => Except.ok "i-new" }

/-- A provider whose snapshot never reports ready within the bounded wait. -/
def timeoutProvider : Provider :=
  { createSnapshot := fun _ _ => Except.ok "snap-2"
    waitSnapshot := fun _ => false
    registerImage := fun _ => Except.ok "ami-9"
    runInstances := fun _ => Except.ok "i-new" }

/-- A concrete source instance whose root device has a matching mapping. -/
def inst1 : Instance :=
  { instanceType := "t2.micro"
    availabilityZone := "ap-south-1a"
    architecture := "x86_64"
    rootDeviceName := "/dev/sda1"
    blockDeviceMappings := [("/dev/sda1", "vol-1")] }

/-- A concrete source instance with no mapping for its root device name. -/
def inst2 : Instance :=
  { instanceType := "t2.micro"
    availabilityZone := "ap-south-1a"
    architecture := "x86_64"
    rootDeviceName := "/dev/xvda"
    blockDeviceMappings := [("/dev/sdb", "vol-2")] }


/- ------------------------------------------------------------------
   Theorems.  First: order facts about the string comparison.
   ------------------------------------------------------------------ -/

theorem char_toNat_inj {a b : Char} (h : a.toNat = b.toNat) : a = b :=
  Char.ext (UInt32.ext h)

theorem charListLt_irrefl : ∀ (l : List Char), charListLt l l = false
  | [] => rfl
  | a :: as => by
    simp [charListLt, charListLt_irrefl as, Nat.lt_irrefl]

theorem charListLt_asymm : ∀ (a b : List Char),
    charListLt a b = true → charListLt b a = false
  | [], [], h => by simp [charListLt] at h
  | [], _ :: _, _ => by simp [charListLt]
  | _ :: _, [], h => by simp [charListLt] at h
  | a :: as, b :: bs, h => by
    simp only [charListLt, Bool.or_eq_true, Bool.and_eq_true, decide_eq_true_eq,
      beq_iff_eq] at h
    simp only [charListLt, Bool.or_eq_false_iff, Bool.and_eq_false_iff,
      decide_eq_false_iff_not, beq_eq_false_iff_ne]
    rcases h with h | ⟨rfl, h⟩
    · exact ⟨by omega, Or.inl (fun hba => by simp [hba] at h)⟩
    · exact ⟨by omega, Or.inr (charListLt_asymm as bs h)⟩

theorem charListLt_trans : ∀ (a b c : List Char),
    charListLt a b = true → charListLt b c = true → charListLt a c = true
  | _, _, [], _, h2 => by cases h2' : charListLt _ [] <;> simp [charListLt] at h2 ⊢
  | [], _, _ :: _, _, _ => by simp [charListLt]
  | _ :: _, [], _ :: _, h1, _ => by simp [charListLt] at h1
  | a :: as, b :: bs, c :: cs, h1, h2 => by
    simp only [charListLt, Bool.or_eq_true, Bool.and_eq_true, decide_eq_true_eq,
      beq_iff_eq] at h1 h2 ⊢
    rcases h1 with h1 | ⟨rfl, h1⟩
    · rcases h2 with h2 | ⟨rfl, h2⟩
      · exact Or.inl (by omega)
      · exact Or.inl h1
    · rcases h2 with h2 | ⟨rfl, h2⟩
      · exact Or.inl h2
      · exact Or.inr ⟨rfl, charListLt_trans as bs cs h1 h2⟩

theorem charListLt_connex : ∀ (a b : List Char),
    charListLt a b = false → charListLt b a = false → a = b
  | [], [], _, _ => rfl
  | [], _ :: _, h1, _ => by simp [charListLt] at h1
  | _ :: _, [], _, h2 => by simp [charListLt] at h2
  | a :: as, b :: bs, h1, h2 => by
    simp only [charListLt, Bool.or_eq_false_iff, Bool.and_eq_false_iff,
      decide_eq_false_iff_not, beq_eq_false_iff_ne] at h1 h2
    have hab : a = b := char_toNat_inj (by omega)
    subst hab
    rcases h1.2 with h | h
    · exact absurd rfl h
    · rcases h2.2 with h2' | h2'
      · exact absurd rfl h2'
      · rw [charListLt_connex as bs h h2']

theorem strLt_asymm {a b : String} (h : strLt a b = true) : strLt b a = false :=
  charListLt_asymm _ _ h

theorem strLt_trans {a b c : String} (h1 : strLt a b = true) (h2 : strLt b c = true) :
    strLt a c = true :=
  charListLt_trans _ _ _ h1 h2

theorem strLt_connex {a b : String} (h1 : strLt a b = false) (h2 : strLt b a = false) :
    a = b := by
  cases a with
  | mk da =>
    cases b with
    | mk db => exact congrArg String.mk (charListLt_connex da db h1 h2)

theorem strLe_total {a b : String} (h : strLe a b = false) : strLe b a = true := by
  simp only [strLe, Bool.not_eq_false'] at h
  simp only [strLe, Bool.not_eq_true']
  exact strLt_asymm h

theorem strLe_trans {a b c : String} (h1 : strLe a b = true) (h2 : strLe b c = true) :
    strLe a c = true := by
  simp only [strLe, Bool.not_eq_true'] at h1 h2 ⊢
  cases hca : strLt c a with
  | false => rfl
  | true =>
    exfalso
    cases hbc : strLt b c with
    | false => exact absurd (hca ▸ strLt_connex h2 hbc ▸ h1) (by simp [hca])
    | true => exact absurd h1 (by simp [strLt_trans hbc hca])

theorem strLt_of_le_of_ne {a b : String} (h1 : strLe a b = true) (h2 : a ≠ b) :
    strLt a b = true := by
  simp only [strLe, Bool.not_eq_true'] at h1
  cases hab : strLt a b with
  | true => rfl
  | false => exact absurd (strLt_connex hab h1) h2

/- Generic facts about the stable insertion sort. -/

theorem insertSorted_perm {α : Type} (le : α → α → Bool) (x : α) :
    ∀ (l : List α), (insertSorted le x l).Perm (x :: l)
  | [] => List.Perm.refl _
  | y :: ys => by
    simp only [insertSorted]
    by_cases h : le x y
    · simp [h]
    · simp only [h, if_false]
      exact ((insertSorted_perm le x ys).cons y).trans (List.Perm.swap x y ys)

theorem insertionSort_perm {α : Type} (le : α → α → Bool) :
    ∀ (l : List α), (insertionSort le l).Perm l
  | [] => List.Perm.refl _
  | x :: xs =>
    (insertSorted_perm le x (insertionSort le xs)).trans ((insertionSort_perm le xs).cons x)

theorem mem_insertionSort {α : Type} (le : α → α → Bool) (l : List α) (a : α) :
    a ∈ insertionSort le l ↔ a ∈ l :=
  (insertionSort_perm le l).mem_iff

theorem pairwise_insertSorted {α : Type} (le : α → α → Bool)
    (htot : ∀ a b, le a b = false → le b a = true)
    (htrans : ∀ a b c, le a b = true → le b c = true → le a c = true)
    (x : α) :
    ∀ (l : List α), l.Pairwise (fun a b => le a b = true) →
      (insertSorted le x l).Pairwise (fun a b => le a b = true)
  | [], _ => by simp [insertSorted]
  | y :: ys, h => by
    rcases List.pairwise_cons.mp h with ⟨hy, hys⟩
    simp only [insertSorted]
    by_cases hxy : le x y
    · simp only [hxy, if_true]
      refine List.pairwise_cons.mpr ⟨?_, h⟩
      intro z hz
      rcases List.mem_cons.mp hz with rfl | hz
      · exact hxy
      · exact htrans x y z hxy (hy z hz)
    · simp only [hxy, if_false]
      refine List.pairwise_cons.mpr ⟨?_, pairwise_insertSorted le htot htrans x ys hys⟩
      intro z hz
      rcases List.mem_cons.mp ((insertSorted_perm le x ys).mem_iff.mp hz) with hzx | hz2
      · rw [hzx]
        exact htot x y (by simpa using hxy)
      · exact hy z hz2

theorem pairwise_insertionSort {α : Type} (le : α → α → Bool)
    (htot : ∀ a b, le a b = false → le b a = true)
    (htrans : ∀ a b c, le a b = true → le b c = true → le a c = true) :
    ∀ (l : List α), (insertionSort le l).Pairwise (fun a b => le a b = true)
  | [] => by simp [insertionSort]
  | x :: xs =>
    pairwise_insertSorted le htot htrans x _ (pairwise_insertionSort le htot htrans xs)

/- Facts about the groupby keys. -/

theorem groupKeys_pairwise_le (lines : List (String × ℚ)) :
    (groupKeys lines).Pairwise (fun a b => strLe a b = true) :=
  pairwise_insertionSort strLe (fun _ _ h => strLe_total h)
    (fun _ _ _ h1 h2 => strLe_trans h1 h2) _

theorem groupKeys_nodup (lines : List (String × ℚ)) : (groupKeys lines).Nodup :=
  ((insertionSort_perm strLe _).nodup_iff).mpr (List.nodup_dedup _)

theorem pairwise_lt_of_le_of_ne :
    ∀ (l : List String), l.Pairwise (fun a b => strLe a b = true) → l.Nodup →
      l.Pairwise (fun a b => strLt a b = true)
  | [], _, _ => by simp
  | x :: xs, h1, h2 => by
    rcases List.pairwise_cons.mp h1 with ⟨ha, hb⟩
    rcases List.pairwise_cons.mp h2 with ⟨hc, hd⟩
    exact List.pairwise_cons.mpr
      ⟨fun z hz => strLt_of_le_of_ne (ha z hz) (hc z hz),
       pairwise_lt_of_le_of_ne xs hb hd⟩

theorem groupKeys_pairwise_lt (lines : List (String × ℚ)) :
    (groupKeys lines).Pairwise (fun a b => strLt a b = true) :=
  pairwise_lt_of_le_of_ne _ (groupKeys_pairwise_le lines) (groupKeys_nodup lines)

theorem aggregate_pairwise_fst_lt (lines : List (String × ℚ)) :
    (aggregate lines).Pairwise (fun a b => strLt a.1 b.1 = true) := by
  unfold aggregate
  exact List.pairwise_map.mpr (by simpa using groupKeys_pairwise_lt lines)

/- The descending cost order of the result.  This depends only on the
   insertion sort being a correct sort for the cost order, not on how it
   orders equal costs, so it holds for numpy argsort at every size. -/

theorem costLe_total (a b : String × ℚ) (h : costLe a b = false) : costLe b a = true := by
  simp only [costLe, decide_eq_true_eq, decide_eq_false_iff_not] at h ⊢
  exact le_of_not_le h

theorem costLe_trans (a b c : String × ℚ) (h1 : costLe a b = true) (h2 : costLe b c = true) :
    costLe a c = true := by
  simp only [costLe, decide_eq_true_eq] at h1 h2 ⊢
  exact le_trans h1 h2

theorem extractCosts_sorted_desc (text : String) :
    (extractCosts text).Pairwise (fun a b => b.2 ≤ a.2) := by
  unfold extractCosts sortValuesDesc
  rw [List.pairwise_reverse]
  have h := pairwise_insertionSort costLe costLe_total costLe_trans
    (aggregate (costLines text))
  exact h.imp (fun hab => by simpa [costLe] using hab)

/- Sum preservation of the groupby. -/

theorem map_congr_mem {α β : Type} {f g : α → β} :
    ∀ {l : List α}, (∀ a ∈ l, f a = g a) → l.map f = l.map g
  | [], _ => rfl
  | x :: xs, h => by
    simp only [List.map_cons, List.cons.injEq]
    exact ⟨h x (by simp), map_congr_mem (fun a ha => h a (by simp [ha]))⟩

theorem sum_map_filter_partition (k : String) :
    ∀ (l : List (String × ℚ)),
      ((l.filter (fun p => p.1 == k)).map Prod.snd).sum
        + ((l.filter (fun p => !(p.1 == k))).map Prod.snd).sum
        = (l.map Prod.snd).sum
  | [] => by simp
  | p :: l => by
    rw [show (((p :: l).map Prod.snd).sum : ℚ) = p.2 + (l.map Prod.snd).sum by simp,
      ← sum_map_filter_partition k l]
    by_cases h : p.1 = k
    · have hbt : (p.1 == k) = true := beq_iff_eq.mpr h
      simp [List.filter_cons, hbt]
      ring
    · have hbf : (p.1 == k) = false := beq_eq_false_iff_ne.mpr h
      simp [List.filter_cons, hbf]
      ring

theorem filter_key_filter_ne (k k' : String) (h : k' ≠ k) :
    ∀ (l : List (String × ℚ)),
      (l.filter (fun p => !(p.1 == k))).filter (fun p => p.1 == k')
        = l.filter (fun p => p.1 == k')
  | [] => rfl
  | p :: l => by
    by_cases h1 : p.1 = k
    · have h2 : ¬ p.1 = k' := fun e => h ((e ▸ h1 : k' = k))
      have hb1 : (p.1 == k) = true := beq_iff_eq.mpr h1
      have hb2 : (p.1 == k') = false := beq_eq_false_iff_ne.mpr h2
      simp [List.filter_cons, hb1, hb2, filter_key_filter_ne k k' h l]
    · have hb1 : (p.1 == k) = false := beq_eq_false_iff_ne.mpr h1
      by_cases h2 : p.1 = k'
      · have hb2 : (p.1 == k') = true := beq_iff_eq.mpr h2
        simp [List.filter_cons, hb1, hb2, filter_key_filter_ne k k' h l]
      · have hb2 : (p.1 == k') = false := beq_eq_false_iff_ne.mpr h2
        simp [List.filter_cons, hb1, hb2, filter_key_filter_ne k k' h l]

theorem groupTotal_filter_ne (k k' : String) (h : k' ≠ k) (lines : List (String × ℚ)) :
    groupTotal (lines.filter (fun p => !(p.1 == k))) k' = groupTotal lines k' := by
  unfold groupTotal
  rw [filter_key_filter_ne k k' h lines]

theorem sum_groupTotals :
    ∀ (keys : List String) (lines : List (String × ℚ)),
      (∀ p ∈ lines, p.1 ∈ keys) → keys.Nodup →
      (keys.map (groupTotal lines)).sum = (lines.map Prod.snd).sum
  | [], lines, hcover, _ => by
    cases lines with
    | nil => simp
    | cons p l => exact absurd (hcover p (by simp)) (by simp)
  | k :: ks, lines, hcover, hnd => by
    rcases List.nodup_cons.mp hnd with ⟨hk, hks⟩
    have hmap : ks.map (groupTotal lines)
        = ks.map (groupTotal (lines.filter (fun p => !(p.1 == k)))) :=
      map_congr_mem (fun k' hk' =>
        (groupTotal_filter_ne k k' (fun he => hk (he ▸ hk')) lines).symm)
    have hcov2 : ∀ p ∈ lines.filter (fun p => !(p.1 == k)), p.1 ∈ ks := by
      intro p hp
      rcases List.mem_filter.mp hp with ⟨hpl, hpk⟩
      rcases List.mem_cons.mp (hcover p hpl) with h | h
      · exact absurd (beq_iff_eq.mpr h) (by simpa using hpk)
      · exact h
    calc ((k :: ks).map (groupTotal lines)).sum
        = groupTotal lines k + (ks.map (groupTotal lines)).sum := by simp
      _ = groupTotal lines k
          + ((lines.filter (fun p => !(p.1 == k))).map Prod.snd).sum := by
            rw [hmap, sum_groupTotals ks _ hcov2 hks]
      _ = (lines.map Prod.snd).sum := sum_map_filter_partition k lines

theorem mem_groupKeys (lines : List (String × ℚ)) (p : String × ℚ) (hp : p ∈ lines) :
    p.1 ∈ groupKeys lines := by
  unfold groupKeys
  rw [mem_insertionSort]
  exact List.mem_dedup.mpr (List.mem_map.mpr ⟨p, hp, rfl⟩)

theorem aggregate_sum (lines : List (String × ℚ)) :
    ((aggregate lines).map Prod.snd).sum = (lines.map Prod.snd).sum := by
  unfold aggregate
  rw [List.map_map]
  have h : (Prod.snd ∘ fun k => (k, groupTotal lines k)) = groupTotal lines := rfl
  rw [h]
  exact sum_groupTotals _ _ (fun p hp => mem_groupKeys lines p hp) (groupKeys_nodup lines)

theorem sortValuesDesc_sum (l : List (String × ℚ)) :
    ((sortValuesDesc l).map Prod.snd).sum = (l.map Prod.snd).sum := by
  unfold sortValuesDesc
  rw [List.map_reverse, List.sum_reverse]
  exact ((insertionSort_perm costLe l).map Prod.snd).sum_eq

/- Uniqueness of names in the aggregation result. -/

theorem extractCosts_perm_aggregate (text : String) :
    (extractCosts text).Perm (aggregate (costLines text)) := by
  unfold extractCosts sortValuesDesc
  exact (List.reverse_perm _).trans (insertionSort_perm costLe _)

theorem aggregate_fst_nodup (lines : List (String × ℚ)) :
    ((aggregate lines).map Prod.fst).Nodup := by
  unfold aggregate
  rw [List.map_map]
  have h : (Prod.fst ∘ fun k => (k, groupTotal lines k)) = id := rfl
  rw [h, List.map_id]
  exact groupKeys_nodup lines

theorem extractCosts_fst_nodup (text : String) :
    ((extractCosts text).map Prod.fst).Nodup :=
  (((extractCosts_perm_aggregate text).map Prod.fst).nodup_iff).mpr
    (aggregate_fst_nodup _)

theorem eq_of_mem_of_fst_eq :
    ∀ {l : List (String × ℚ)}, (l.map Prod.fst).Nodup →
      ∀ {a b : String × ℚ}, a ∈ l → b ∈ l → a.1 = b.1 → a = b
  | [], _, _, _, ha, _, _ => absurd ha (by simp)
  | p :: l, h, a, b, ha, hb, hf => by
    rw [List.map_cons, List.nodup_cons] at h
    rcases h with ⟨hp, hl⟩
    rcases List.mem_cons.mp ha with hap | ha2
    · rcases List.mem_cons.mp hb with hbp | hb2
      · rw [hap, hbp]
      · exact absurd (List.mem_map.mpr ⟨b, hb2, (hap ▸ hf).symm⟩) hp
    · rcases List.mem_cons.mp hb with hbp | hb2
      · exact absurd (List.mem_map.mpr ⟨a, ha2, hbp ▸ hf⟩) hp
      · exact eq_of_mem_of_fst_eq hl ha2 hb2 hf

theorem mem_extractCosts_of_name (text : String) (name : String)
    (h : name ∈ (costLines text).map Prod.fst) :
    (name, groupTotal (costLines text) name) ∈ extractCosts text := by
  apply (extractCosts_perm_aggregate text).mem_iff.mpr
  unfold aggregate
  apply List.mem_map.mpr
  refine ⟨name, ?_, rfl⟩
  unfold groupKeys
  rw [mem_insertionSort]
  exact List.mem_dedup.mpr h

/- Concrete evaluations of the pipeline. -/

theorem amountVal_300 : amountVal "3.00" = 3 := by
  unfold amountVal
  rw [show amountCents "3.00" = 300 from by decide]
  norm_num

theorem amountVal_100e : amountVal "1.00" = 1 := by
  unfold amountVal
  rw [show amountCents "1.00" = 100 from by decide]
  norm_num

theorem amountVal_200e : amountVal "2.00" = 2 := by
  unfold amountVal
  rw [show amountCents "2.00" = 200 from by decide]
  norm_num

theorem costLines_foo : costLines "Foo USD 3.00" = [("Foo", (3 : ℚ))] := by
  have h : rawMatches "Foo USD 3.00" = [("Foo", "3.00")] := by decide
  have hd : lower "Foo" ∉ denylist := by decide
  have hs : strip "Foo" = "Foo" := by decide
  simp [costLines, h, hd, hs, amountVal_300]

theorem extract_foo : extractCosts "Foo USD 3.00" = [("Foo", (3 : ℚ))] := by
  rw [extractCosts, costLines_foo]
  rw [aggregate, show groupKeys [("Foo", (3 : ℚ))] = ["Foo"] from by decide]
  simp [groupTotal, sortValuesDesc, insertionSort, insertSorted]

theorem costLines_ec : costLines "Ec USD 1.00\nec USD 2.00" = [("Ec", 1), ("ec", 2)] := by
  have h : rawMatches "Ec USD 1.00\nec USD 2.00" = [("Ec", "1.00"), ("ec", "2.00")] := by
    decide
  have hd1 : lower "Ec" ∉ denylist := by decide
  have hd2 : lower "ec" ∉ denylist := by decide
  have hs1 : strip "Ec" = "Ec" := by decide
  have hs2 : strip "ec" = "ec" := by decide
  simp [costLines, h, hd1, hd2, hs1, hs2, amountVal_100e, amountVal_200e]

theorem extract_ec :
    extractCosts "Ec USD 1.00\nec USD 2.00" = [("ec", 2), ("Ec", 1)] := by
  rw [extractCosts, costLines_ec]
  rw [aggregate, show groupKeys [("Ec", (1 : ℚ)), ("ec", 2)] = ["Ec", "ec"] from by decide]
  have h1 : groupTotal [("Ec", (1 : ℚ)), ("ec", 2)] "Ec" = 1 := by
    simp [groupTotal, List.filter_cons, show (("Ec" == "Ec") : Bool) = true from by decide,
      show (("ec" == "Ec") : Bool) = false from by decide]
  have h2 : groupTotal [("Ec", (1 : ℚ)), ("ec", 2)] "ec" = 2 := by
    simp [groupTotal, List.filter_cons, show (("Ec" == "ec") : Bool) = false from by decide,
      show (("ec" == "ec") : Bool) = true from by decide]
  simp only [List.map_cons, List.map_nil, h1, h2]
  rw [sortValuesDesc, insertionSort, insertionSort, insertionSort]
  norm_num [insertSorted, costLe]

def c2Text : String :=
  "Elastic Compute Cloud USD 120.50\nS3 USD 9.99\nElastic Compute Cloud USD 10.00"

theorem rawMatches_c2 :
    rawMatches c2Text
      = [("Elastic Compute Cloud", "120.50"), ("Elastic Compute Cloud", "10.00")] := by
  decide

theorem amountVal_12050 : amountVal "120.50" = 241 / 2 := by
  unfold amountVal
  rw [show amountCents "120.50" = 12050 from by decide]
  norm_num

theorem amountVal_1000e : amountVal "10.00" = 10 := by
  unfold amountVal
  rw [show amountCents "10.00" = 1000 from by decide]
  norm_num

theorem costLines_c2 :
    costLines c2Text
      = [("Elastic Compute Cloud", 241 / 2), ("Elastic Compute Cloud", 10)] := by
  have hd : lower "Elastic Compute Cloud" ∉ denylist := by decide
  have hs : strip "Elastic Compute Cloud" = "Elastic Compute Cloud" := by decide
  simp [costLines, rawMatches_c2, hd, hs, amountVal_12050, amountVal_1000e]

theorem extract_c2 :
    extractCosts c2Text = [("Elastic Compute Cloud", 261 / 2)] := by
  rw [extractCosts, costLines_c2]
  rw [aggregate, show groupKeys [("Elastic Compute Cloud", (241 / 2 : ℚ)),
    ("Elastic Compute Cloud", 10)] = ["Elastic Compute Cloud"] from by decide]
  have h1 : groupTotal [("Elastic Compute Cloud", (241 / 2 : ℚ)),
      ("Elastic Compute Cloud", 10)] "Elastic Compute Cloud" = 261 / 2 := by
    simp [groupTotal, List.filter_cons,
      show (("Elastic Compute Cloud" == "Elastic Compute Cloud") : Bool) = true from by decide]
    norm_num
  simp only [List.map_cons, List.map_nil, h1]
  simp [sortValuesDesc, insertionSort, insertSorted]

def c9Text : String := "Alpha USD 1.00\nBeta USD 1.00"

theorem costLines_c9 : costLines c9Text = [("Alpha", 1), ("Beta", 1)] := by
  have h : rawMatches c9Text = [("Alpha", "1.00"), ("Beta", "1.00")] := by decide
  have hd1 : lower "Alpha" ∉ denylist := by decide
  have hd2 : lower "Beta" ∉ denylist := by decide
  have hs1 : strip "Alpha" = "Alpha" := by decide
  have hs2 : strip "Beta" = "Beta" := by decide
  simp [costLines, h, hd1, hd2, hs1, hs2, amountVal_100e]

theorem extract_c9 : extractCosts c9Text = [("Beta", 1), ("Alpha", 1)] := by
  rw [extractCosts, costLines_c9]
  rw [aggregate, show groupKeys [("Alpha", (1 : ℚ)), ("Beta", 1)] = ["Alpha", "Beta"]
    from by decide]
  have h1 : groupTotal [("Alpha", (1 : ℚ)), ("Beta", 1)] "Alpha" = 1 := by
    simp [groupTotal, List.filter_cons, show (("Alpha" == "Alpha") : Bool) = true from by decide,
      show (("Beta" == "Alpha") : Bool) = false from by decide]
  have h2 : groupTotal [("Alpha", (1 : ℚ)), ("Beta", 1)] "Beta" = 1 := by
    simp [groupTotal, List.filter_cons, show (("Alpha" == "Beta") : Bool) = false from by decide,
      show (("Beta" == "Beta") : Bool) = true from by decide]
  simp only [List.map_cons, List.map_nil, h1, h2]
  rw [sortValuesDesc, insertionSort, insertionSort, insertionSort]
  norm_num [insertSorted, costLe]

/- ------------------------------------------------------------------
   Claims about cost extraction.
   ------------------------------------------------------------------ -/

/-- C1 counterexample: on the input line Foo USD 3.00 the stored record is
("Foo", 3) — the parsed dollar value — not ("Foo", 300) as an integer count
of minor units would require. -/
theorem C1_counterexample :
    costLines "Foo USD 3.00" = [("Foo", (3 : ℚ))] ∧ ((3 : ℚ) ≠ 300) :=
  ⟨costLines_foo, by norm_num⟩

/-- C1 (amended): every amount stored by the tab 1 loop is the parsed
decimal value in dollars: a rational equal to a nonnegative whole number of
cents divided by 100 (the pattern fixes exactly two fractional digits, and
commas are stripped before conversion); it is not converted to an integer
count of minor units. -/
theorem C1_amount_whole_cents (text : String) (p : String × ℚ)
    (hp : p ∈ costLines text) : ∃ n : ℕ, p.2 = (n : ℚ) / 100 := by
  unfold costLines at hp
  rcases List.mem_filterMap.mp hp with ⟨m, _, hf⟩
  by_cases h : lower m.1 ∈ denylist
  · rw [if_pos h] at hf
    cases hf
  · rw [if_neg h] at hf
    injection hf with hf2
    exact ⟨amountCents m.2, by rw [← hf2]; rfl⟩

/-- C1 witness: the theorem applied to the record parsed from Foo USD 3.00. -/
theorem C1_witness :
    (("Foo", (3 : ℚ)) ∈ costLines "Foo USD 3.00")
      ∧ ∃ n : ℕ, (("Foo", (3 : ℚ)) : String × ℚ).2 = (n : ℚ) / 100 := by
  have hm : (("Foo", (3 : ℚ)) ∈ costLines "Foo USD 3.00") := by
    rw [costLines_foo]
    simp
  exact ⟨hm, C1_amount_whole_cents "Foo USD 3.00" ("Foo", (3 : ℚ)) hm⟩

/-- C2 counterexample: on the three example lines the extraction returns a
single entry ("Elastic Compute Cloud", 130.50) — the S3 line is not matched
because the label class [A-Za-z ] cannot match the digit in S3, and the
totals are dollar values, not minor units — so the result does not have the
two entries the claim requires. -/
theorem C2_counterexample :
    extractCosts c2Text = [("Elastic Compute Cloud", 261 / 2)]
      ∧ (extractCosts c2Text).length = 1
      ∧ (extractCosts c2Text).length ≠ 2 :=
  ⟨extract_c2, by rw [extract_c2]; rfl, by rw [extract_c2]; decide⟩

/-- C2 (amended): on the input lines Elastic Compute Cloud USD 120.50,
S3 USD 9.99, Elastic Compute Cloud USD 10.00, the extraction returns exactly
one entry: Elastic Compute Cloud with total 130.50 dollars (the two matched
lines aggregated); S3 USD 9.99 yields no match because the label pattern
accepts only letters and spaces. -/
theorem C2_single_entry :
    extractCosts c2Text = [("Elastic Compute Cloud", 261 / 2)]
      ∧ rawMatches c2Text
        = [("Elastic Compute Cloud", "120.50"), ("Elastic Compute Cloud", "10.00")] :=
  ⟨extract_c2, rawMatches_c2⟩

/-- C3 counterexample: for the single line Foo USD 3.00 the sum of the
returned totals is 3 (dollars), while the sum of the matched amounts in
minor units is 300; the two are different, so the totals are not in minor
units as the claim states. -/
theorem C3_counterexample :
    ((extractCosts "Foo USD 3.00").map Prod.snd).sum = 3
      ∧ amountCents "3.00" = 300
      ∧ ((3 : ℚ) ≠ 300) := by
  refine ⟨?_, by decide, by norm_num⟩
  rw [extract_foo]
  simp

/-- C3 (amended): for every input text, the sum of the totals over the
aggregation result equals exactly the sum of the amounts of all parsed cost
lines that are not denylisted, in the units the code actually stores
(dollars, modelled as exact rationals); the grouping loses nothing. -/
theorem C3_sum_preserved (text : String) :
    ((extractCosts text).map Prod.snd).sum = ((costLines text).map Prod.snd).sum := by
  unfold extractCosts
  rw [sortValuesDesc_sum, aggregate_sum]

/-- C4 counterexample: the parsed labels Ec and ec differ only in letter
case, yet aggregation returns two separate entries — grouping is on the
stripped name only and is case sensitive. -/
theorem C4_counterexample :
    extractCosts "Ec USD 1.00\nec USD 2.00" = [("ec", 2), ("Ec", 1)]
      ∧ (extractCosts "Ec USD 1.00\nec USD 2.00").length = 2
      ∧ (extractCosts "Ec USD 1.00\nec USD 2.00").length ≠ 1 :=
  ⟨extract_ec, by rw [extract_ec]; rfl, by rw [extract_ec]; decide⟩

/-- C4 (amended): parsed labels that differ only in leading and trailing
whitespace (so that name.strip() coincides) and are not denylisted aggregate
into the same single entry of the result; labels that differ in letter case
do not, since grouping is by the exact stripped name. -/
theorem C4_trim_grouping (text : String) (l1 a1 l2 a2 : String)
    (h1 : (l1, a1) ∈ rawMatches text) (h2 : (l2, a2) ∈ rawMatches text)
    (ht : strip l1 = strip l2)
    (hd1 : lower l1 ∉ denylist) (hd2 : lower l2 ∉ denylist) :
    ∃ q ∈ extractCosts text, q.1 = strip l1 ∧ q.1 = strip l2
      ∧ ∀ q2 ∈ extractCosts text, q2.1 = strip l1 → q2 = q := by
  have hm : (strip l1, amountVal a1) ∈ costLines text := by
    unfold costLines
    exact List.mem_filterMap.mpr ⟨(l1, a1), h1, by rw [if_neg hd1]⟩
  have hname : strip l1 ∈ (costLines text).map Prod.fst :=
    List.mem_map.mpr ⟨_, hm, rfl⟩
  refine ⟨(strip l1, groupTotal (costLines text) (strip l1)),
    mem_extractCosts_of_name text _ hname, rfl, ht ▸ rfl, ?_⟩
  intro q2 hq2 hq2f
  exact eq_of_mem_of_fst_eq (extractCosts_fst_nodup text) hq2
    (mem_extractCosts_of_name text _ hname) hq2f

/-- C4 witness: the theorem applied to the labels " Foo" and "Foo" parsed
from a concrete text, which differ only in leading whitespace. -/
theorem C4_witness :
    (("Foo", "1.00") ∈ rawMatches "Foo USD 1.00\n Foo USD 2.00")
      ∧ ((" Foo", "2.00") ∈ rawMatches "Foo USD 1.00\n Foo USD 2.00")
      ∧ strip "Foo" = strip " Foo"
      ∧ (∃ q ∈ extractCosts "Foo USD 1.00\n Foo USD 2.00",
          q.1 = strip "Foo" ∧ q.1 = strip " Foo"
            ∧ ∀ q2 ∈ extractCosts "Foo USD 1.00\n Foo USD 2.00",
                q2.1 = strip "Foo" → q2 = q) := by
  refine ⟨by decide, by decide, by decide, ?_⟩
  exact C4_trim_grouping "Foo USD 1.00\n Foo USD 2.00" "Foo" "1.00" " Foo" "2.00"
    (by decide) (by decide) (by decide) (by decide) (by decide)

/-- C9 counterexample: on two lines with equal totals the returned order is
Beta before Alpha — the entries with equal totals are ordered by descending
name, not ascending as the claim states. -/
theorem C9_counterexample :
    extractCosts c9Text = [("Beta", 1), ("Alpha", 1)]
      ∧ strLt "Alpha" "Beta" = true
      ∧ extractCosts c9Text ≠ [("Alpha", 1), ("Beta", 1)] :=
  ⟨extract_c9, by decide, by rw [extract_c9]; simp⟩

/-- C9 (amended): every aggregation result is sorted in non-increasing
order of total.  Entries with equal totals are not ordered by ascending
name: pandas reverses an ascending argsort, so at the counterexample input
(two groups, where the numpy sort is a stable insertion sort) the ties come
out in descending name order; for sixteen or more groups the numpy introsort
guarantees no particular tie order at all, so no name tie-break of either
direction is part of the contract. -/
theorem C9_sorted_desc_totals (text : String) :
    (extractCosts text).Pairwise (fun a b => b.2 ≤ a.2) :=
  extractCosts_sorted_desc text

/- ------------------------------------------------------------------
   Claims about the migration orchestrator.
   ------------------------------------------------------------------ -/

theorem foldl_lookup_none (root : String) :
    ∀ (l : List (String × String)), (∀ m ∈ l, m.1 ≠ root) → ∀ acc : Option String,
      l.foldl (fun acc m => if m.1 == root then some m.2 else acc) acc = acc
  | [], _, _ => rfl
  | m :: l, h, acc => by
    have hm : (m.1 == root) = false := beq_eq_false_iff_ne.mpr (h m (by simp))
    simp only [List.foldl_cons, hm, Bool.false_eq_true, if_false]
    exact foldl_lookup_none root l (fun x hx => h x (by simp [hx])) acc

theorem rootLookup_eq_none (inst : Instance)
    (h : ∀ m ∈ inst.blockDeviceMappings, m.1 ≠ inst.rootDeviceName) :
    rootLookup inst = none := by
  unfold rootLookup
  have hf : inst.blockDeviceMappings.find? (fun m => m.1 == inst.rootDeviceName) = none :=
    List.find?_eq_none.mpr (fun m hm => by simpa using h m hm)
  rw [hf]
  rfl

theorem rootLookupTab2_eq_none (inst : Instance)
    (h : ∀ m ∈ inst.blockDeviceMappings, m.1 ≠ inst.rootDeviceName) :
    rootLookupTab2 inst = none := by
  unfold rootLookupTab2
  exact foldl_lookup_none inst.rootDeviceName inst.blockDeviceMappings h none

/-- Every register_image call of a tab 3 run has the arguments the code
builds from the source instance and the created snapshot. -/
theorem migrateTab3_register_calls (p : Provider) (inst : Instance) (sel key : String)
    (ra : RegisterImageArgs)
    (hra : Call.registerImage ra ∈ (migrateTab3 p inst sel key).calls) :
    ∃ sid, ra = tab3RegisterArgs inst sel sid := by
  unfold migrateTab3 at hra
  split at hra
  · simp at hra
  · split at hra
    · simp at hra
    · split at hra
      · split at hra
        · simp at hra
          exact ⟨_, hra⟩
        · split at hra
          · simp at hra
            exact ⟨_, hra⟩
          · simp at hra
            exact ⟨_, hra⟩
      · simp at hra

/-- Every run_instances call of a tab 3 run has the arguments the code
builds from the source instance, the registered image and the key input. -/
theorem migrateTab3_run_calls (p : Provider) (inst : Instance) (sel key : String)
    (la : RunInstancesArgs)
    (hla : Call.runInstances la ∈ (migrateTab3 p inst sel key).calls) :
    ∃ amiId, la = tab3RunArgs inst amiId key := by
  unfold migrateTab3 at hla
  split at hla
  · simp at hla
  · split at hla
    · simp at hla
    · split at hla
      · split at hla
        · simp at hla
        · split at hla
          · simp at hla
            exact ⟨_, hla⟩
          · simp at hla
            exact ⟨_, hla⟩
      · simp at hla

/-- A tab 2 run never performs a register_image call. -/
theorem migrateTab2_no_register (p : Provider) (inst : Instance) (sel : String)
    (ra : RegisterImageArgs) :
    Call.registerImage ra ∉ (migrateTab2 p inst sel).calls := by
  intro hra
  unfold migrateTab2 at hra
  split at hra
  · simp at hra
  · split at hra
    · simp at hra
    · split at hra
      · simp at hra
      · split at hra
        · split at hra
          · simp at hra
          · simp at hra
        · simp at hra

/-- C5: for every run over an instance whose block device mappings contain
no entry matching the declared root device name, both migration flows
terminate failed at the inspecting phase with missingRootVolume and never
invoke snapshot creation. -/
theorem C5_missing_root_volume (p : Provider) (inst : Instance) (sel key : String)
    (h : ∀ m ∈ inst.blockDeviceMappings, m.1 ≠ inst.rootDeviceName) :
    ((migrateTab3 p inst sel key).failure
        = some (Phase.inspecting, FailReason.missingRootVolume)
      ∧ (∀ v d, Call.createSnapshot v d ∉ (migrateTab3 p inst sel key).calls))
    ∧ ((migrateTab2 p inst sel).failure
        = some (Phase.inspecting, FailReason.missingRootVolume)
      ∧ (∀ v d, Call.createSnapshot v d ∉ (migrateTab2 p inst sel).calls)) := by
  have h3 : rootLookup inst = none := rootLookup_eq_none inst h
  have h4 : rootLookupTab2 inst = none := rootLookupTab2_eq_none inst h
  refine ⟨⟨?_, ?_⟩, ?_, ?_⟩
  · simp [migrateTab3, h3]
  · intro v d
    simp [migrateTab3, h3]
  · simp [migrateTab2, h4]
  · intro v d
    simp [migrateTab2, h4]

/-- C5 witness: the theorem applied to a concrete instance whose only
mapping is for a different device than its root device name. -/
theorem C5_witness :
    (∀ m ∈ inst2.blockDeviceMappings, m.1 ≠ inst2.rootDeviceName)
      ∧ (((migrateTab3 okProvider inst2 "i-0" "key").failure
            = some (Phase.inspecting, FailReason.missingRootVolume)
          ∧ (∀ v d, Call.createSnapshot v d ∉ (migrateTab3 okProvider inst2 "i-0" "key").calls))
        ∧ ((migrateTab2 okProvider inst2 "i-0").failure
            = some (Phase.inspecting, FailReason.missingRootVolume)
          ∧ (∀ v d, Call.createSnapshot v d ∉ (migrateTab2 okProvider inst2 "i-0").calls))) := by
  have h : ∀ m ∈ inst2.blockDeviceMappings, m.1 ≠ inst2.rootDeviceName := by decide
  exact ⟨h, C5_missing_root_volume okProvider inst2 "i-0" "key" h⟩

/-- C6: for every run whose snapshot is created with identifier sid but
never reports ready within the bounded wait, the run terminates failed at
the snapshotRequested phase with reason timeout, the created snapshot
identifier is recorded in the result, the identifier was reported to the
user, and no new instance exists. -/
theorem C6_snapshot_timeout (p : Provider) (inst : Instance) (sel key vol sid : String)
    (h1 : rootLookup inst = some vol)
    (h2 : p.createSnapshot vol ("Snapshot of " ++ sel) = Except.ok sid)
    (h3 : p.waitSnapshot sid = false) :
    (migrateTab3 p inst sel key).failure
        = some (Phase.snapshotRequested, FailReason.timeout)
      ∧ (migrateTab3 p inst sel key).snapshotId = some sid
      ∧ ("Creating snapshot " ++ sid ++ "...") ∈ (migrateTab3 p inst sel key).messages
      ∧ (migrateTab3 p inst sel key).newInstanceId = none := by
  simp [migrateTab3, h1, h2, h3]

/-- C6 witness: the theorem applied to a provider that creates snap-2 and
whose waiter always times out. -/
theorem C6_witness :
    rootLookup inst1 = some "vol-1"
      ∧ timeoutProvider.createSnapshot "vol-1" ("Snapshot of " ++ "i-0") = Except.ok "snap-2"
      ∧ timeoutProvider.waitSnapshot "snap-2" = false
      ∧ ((migrateTab3 timeoutProvider inst1 "i-0" "key").failure
          = some (Phase.snapshotRequested, FailReason.timeout)
        ∧ (migrateTab3 timeoutProvider inst1 "i-0" "key").snapshotId = some "snap-2"
        ∧ ("Creating snapshot " ++ "snap-2" ++ "...")
            ∈ (migrateTab3 timeoutProvider inst1 "i-0" "key").messages
        ∧ (migrateTab3 timeoutProvider inst1 "i-0" "key").newInstanceId = none) := by
  refine ⟨by decide, rfl, rfl, ?_⟩
  exact C6_snapshot_timeout timeoutProvider inst1 "i-0" "key" "vol-1" "snap-2"
    (by decide) rfl rfl

/-- C7: for every run in which the provider succeeds at every phase, the
tab 3 orchestrator reaches the phases in the exact order inspecting,
snapshotRequested, snapshotReady, imageRegistered, launched, performs each
provider operation exactly once with image registration before launch (the
call log is exactly the five calls in that order), and returns the non
empty new instance identifier. -/
theorem C7_success_phase_order (p : Provider) (inst : Instance)
    (sel key vol sid amiId nid : String)
    (h1 : rootLookup inst = some vol)
    (h2 : p.createSnapshot vol ("Snapshot of " ++ sel) = Except.ok sid)
    (h3 : p.waitSnapshot sid = true)
    (h4 : p.registerImage (tab3RegisterArgs inst sel sid) = Except.ok amiId)
    (h5 : p.runInstances (tab3RunArgs inst amiId key) = Except.ok nid)
    (h6 : nid ≠ "") :
    (migrateTab3 p inst sel key).phases
        = [Phase.inspecting, Phase.snapshotRequested, Phase.snapshotReady,
           Phase.imageRegistered, Phase.launched]
      ∧ (migrateTab3 p inst sel key).calls
        = [Call.describeInstances sel,
           Call.createSnapshot vol ("Snapshot of " ++ sel),
           Call.waitSnapshot sid,
           Call.registerImage (tab3RegisterArgs inst sel sid),
           Call.runInstances (tab3RunArgs inst amiId key)]
      ∧ (migrateTab3 p inst sel key).newInstanceId = some nid
      ∧ (migrateTab3 p inst sel key).failure = none
      ∧ nid ≠ "" := by
  refine ⟨?_, ?_, ?_, ?_, h6⟩ <;> simp [migrateTab3, h1, h2, h3, h4, h5]

/-- C7 witness: the theorem applied to a provider succeeding everywhere. -/
theorem C7_witness :
    rootLookup inst1 = some "vol-1"
      ∧ ("i-new" : String) ≠ ""
      ∧ ((migrateTab3 okProvider inst1 "i-0" "key").phases
          = [Phase.inspecting, Phase.snapshotRequested, Phase.snapshotReady,
             Phase.imageRegistered, Phase.launched]
        ∧ (migrateTab3 okProvider inst1 "i-0" "key").calls
          = [Call.describeInstances "i-0",
             Call.createSnapshot "vol-1" ("Snapshot of " ++ "i-0"),
             Call.waitSnapshot "snap-1",
             Call.registerImage (tab3RegisterArgs inst1 "i-0" "snap-1"),
             Call.runInstances (tab3RunArgs inst1 "ami-9" "key")]
        ∧ (migrateTab3 okProvider inst1 "i-0" "key").newInstanceId = some "i-new"
        ∧ (migrateTab3 okProvider inst1 "i-0" "key").failure = none
        ∧ ("i-new" : String) ≠ "") := by
  refine ⟨by decide, by decide, ?_⟩
  exact C7_success_phase_order okProvider inst1 "i-0" "key" "vol-1" "snap-1" "ami-9" "i-new"
    (by decide) rfl rfl rfl rfl (by decide)

/-- C8: for every tab 3 run, any image registration uses the looked-up root
device name and the architecture of the source instance (also in the block
device mapping of the image), and any replacement launch uses the instance
type and availability zone of the source instance; the tab 2 flow never
reaches image registration at all. -/
theorem C8_register_launch_from_source (p : Provider) (inst : Instance) (sel key : String) :
    (∀ ra, Call.registerImage ra ∈ (migrateTab3 p inst sel key).calls →
        ra.rootDeviceName = inst.rootDeviceName
          ∧ ra.architecture = inst.architecture
          ∧ ∀ b ∈ ra.blockDeviceMappings, b.1 = inst.rootDeviceName)
      ∧ (∀ la, Call.runInstances la ∈ (migrateTab3 p inst sel key).calls →
          la.instanceType = inst.instanceType
            ∧ la.placementAZ = some inst.availabilityZone)
      ∧ (∀ ra, Call.registerImage ra ∉ (migrateTab2 p inst sel).calls) := by
  refine ⟨?_, ?_, fun ra => migrateTab2_no_register p inst sel ra⟩
  · intro ra hra
    rcases migrateTab3_register_calls p inst sel key ra hra with ⟨sid, rfl⟩
    refine ⟨rfl, rfl, ?_⟩
    intro b hb
    simp only [tab3RegisterArgs, List.mem_singleton] at hb
    rw [hb]
  · intro la hla
    rcases migrateTab3_run_calls p inst sel key la hla with ⟨amiId, rfl⟩
    exact ⟨rfl, rfl⟩

/-- C8 witness: the theorem applied to a fully successful concrete run,
showing the concrete register and launch arguments carry the source
metadata. -/
theorem C8_witness :
    (Call.registerImage (tab3RegisterArgs inst1 "i-0" "snap-1")
        ∈ (migrateTab3 okProvider inst1 "i-0" "key").calls)
      ∧ ((tab3RegisterArgs inst1 "i-0" "snap-1").rootDeviceName = inst1.rootDeviceName
        ∧ (tab3RegisterArgs inst1 "i-0" "snap-1").architecture = inst1.architecture
        ∧ ∀ b ∈ (tab3RegisterArgs inst1 "i-0" "snap-1").blockDeviceMappings,
            b.1 = inst1.rootDeviceName)
      ∧ (Call.runInstances (tab3RunArgs inst1 "ami-9" "key")
        ∈ (migrateTab3 okProvider inst1 "i-0" "key").calls)
      ∧ ((tab3RunArgs inst1 "ami-9" "key").instanceType = inst1.instanceType
        ∧ (tab3RunArgs inst1 "ami-9" "key").placementAZ = some inst1.availabilityZone) := by
  have hm1 : Call.registerImage (tab3RegisterArgs inst1 "i-0" "snap-1")
      ∈ (migrateTab3 okProvider inst1 "i-0" "key").calls := by decide
  have hm2 : Call.runInstances (tab3RunArgs inst1 "ami-9" "key")
      ∈ (migrateTab3 okProvider inst1 "i-0" "key").calls := by decide
  exact ⟨hm1, (C8_register_launch_from_source okProvider inst1 "i-0" "key").1 _ hm1,
    hm2, (C8_register_launch_from_source okProvider inst1 "i-0" "key").2.1 _ hm2⟩

/-- C10: for every tab 3 run that attempts the replacement launch, the
launch arguments set the placement availability zone to the availability
zone of the source instance. -/
theorem C10_preserves_az (p : Provider) (inst : Instance) (sel key : String)
    (la : RunInstancesArgs)
    (h : Call.runInstances la ∈ (migrateTab3 p inst sel key).calls) :
    la.placementAZ = some inst.availabilityZone := by
  rcases migrateTab3_run_calls p inst sel key la h with ⟨amiId, rfl⟩
  rfl

/-- C10 witness: the theorem applied to a concrete successful run. -/
theorem C10_witness :
    (Call.runInstances (tab3RunArgs inst1 "ami-9" "key")
        ∈ (migrateTab3 okProvider inst1 "i-0" "key").calls)
      ∧ (tab3RunArgs inst1 "ami-9" "key").placementAZ = some inst1.availabilityZone := by
  have hm : Call.runInstances (tab3RunArgs inst1 "ami-9" "key")
      ∈ (migrateTab3 okProvider inst1 "i-0" "key").calls := by decide
  exact ⟨hm, C10_preserves_az okProvider inst1 "i-0" "key" _ hm⟩
